import Mathlib

/-!
# Verification of the doorstep Pachyderm engine

A shallow embedding of `src/ltldoorstep/engines/pachyderm.py` and
`src/ltldoorstep/engines/pachyderm_proxy/commit.py`, together with
spec-modelled stubs for the `pachyderm_proxy` modules (`pipeline.py`,
`repo.py`, `job_error.py`) that are referenced by the engine but whose
sources are not in the repository snapshot.

Conventions of the embedding:
* Python strings are `String`; byte content is kept as the decoded
  `String` where the encode/decode round-trip is not at issue.
* Python `None`-able values are `Option`.
* Exceptions are `Except` / explicit error constructors.
* The asyncio structure of `PachydermEngine.run` is embedded at the level
  of task outcomes: each concurrent task is a pure function from its
  inputs (the commit stream delivered to the subscription, the sequence of
  polled job states) to its result, and the `await` structure of `run`
  determines how those results combine.
-/

namespace Doorstep

/-! ## Commits and provenance (`pachyderm_proxy/commit.py`) -/

/-- One entry of the provenance listing reconstructed by
`PachydermCommit.from_raw`: the dictionary holding the id and the
repository name of a contributing commit. -/
structure ProvEntry where
  id : String
  repo_name : String
deriving DecidableEq

/-- Proxy for a Pachyderm commit (`commit.py`, class `PachydermCommit`):
repository, commit name, and the optional provenance listing.  The
provenance is `none` exactly when the constructor received Python
`None`. -/
structure PachydermCommit where
  repo : String
  name : String
  provenance : Option (List ProvEntry)
deriving DecidableEq

/-- The repo message inside a raw gRPC provenance entry (`prov.repo`). -/
structure RawRepo where
  name : String
deriving DecidableEq

/-- One raw gRPC provenance entry (`prov` in `from_raw`): an id and a repo
message. -/
structure RawProvenance where
  id : String
  repo : RawRepo
deriving DecidableEq

/-- The commit reference inside a raw gRPC commit (`commit.commit`). -/
structure RawCommitRef where
  repo : String
  id : String
deriving DecidableEq

/-- A raw gRPC commit as consumed by `PachydermCommit.from_raw`: the
commit reference plus the cluster's provenance listing (possibly empty). -/
structure RawCommit where
  commit : RawCommitRef
  provenance : List RawProvenance
deriving DecidableEq

/-- `PachydermCommit.from_raw` (`commit.py` lines 50-67): the provenance
starts as `None` and is rebuilt from the cluster listing only when that
listing is non-empty (Python truthiness of `commit.provenance`). -/
def PachydermCommit.from_raw (c : RawCommit) : PachydermCommit :=
  let provenance : Option (List ProvEntry) :=
    if c.provenance.isEmpty then
      none
    else
      some (c.provenance.map (fun prov => ⟨prov.id, prov.repo.name⟩))
  ⟨c.commit.repo, c.commit.id, provenance⟩

/-! ## The subscription path (`pachyderm.py`, `watch_for_output`) -/

/-- The provenance set computed by the loop body of `watch_for_output`:
the Python set comprehension over `commit.get_provenance()`.  When the
provenance is `None` the comprehension iterates over `None`, which in
Python raises a `TypeError`; that case is `none` here. -/
def provSetOf (c : PachydermCommit) : Option (Finset String) :=
  match c.provenance with
  | none => none
  | some ps => some (ps.map (fun p => p.repo_name)).toFinset

/-- Decidable check used in theorem statements: `some true` when the
commit's provenance set equals the target, `some false` when it is
present but different, `none` when the commit carries no provenance. -/
def provCheck (target : Finset String) (c : PachydermCommit) : Option Bool :=
  match c.provenance with
  | none => none
  | some ps => some (decide ((ps.map (fun p => p.repo_name)).toFinset = target))

/-- Outcome of the `watch_for_output` task for a given (finite) sequence
of commits delivered by the subscription. -/
inductive WatchResult where
  /-- The loop exited with this commit; it was put on the queue and
  `stop_watching_commits` ran. -/
  | delivered (c : PachydermCommit)
  /-- The stream offered no matching commit: the task stays suspended in
  `commit_queue.get()` forever. -/
  | blocked
  /-- The loop body raised (`TypeError` from iterating a `None`
  provenance); the task dies without putting anything on the queue and
  without `stop_watching_commits`. -/
  | crashed
deriving DecidableEq

/-- `watch_for_output` (`pachyderm.py` lines 163-174) over the sequence of
commits delivered to the subscription: starting from `provenance = False`
the loop always fetches at least one commit, recomputes the provenance
set, and stops at the first commit whose set equals `input_repos`. -/
def watchForOutput (target : Finset String) : List PachydermCommit → WatchResult
  | [] => .blocked
  | c :: rest =>
    match c.provenance with
    | none => .crashed
    | some ps =>
      if (ps.map (fun p => p.repo_name)).toFinset = target then
        .delivered c
      else
        watchForOutput target rest

/-- The target set `input_repos` built by `watch_for_output` from the
session's two repository names. -/
def inputRepos (dataName processorsName : String) : Finset String :=
  {dataName, processorsName}

/-! ## Job states and the two-phase wait (`pachyderm.py`, `_wait_for_pipeline`) -/

/-- Observable job lifecycle states (`pypachy.JOB_*`). -/
inductive JobState where
  | pending
  | starting
  | running
  | succeeded
  | failed
deriving DecidableEq

/-- One log entry as returned by `JobFailedException.logs()`; the engine
reads its `message` field. -/
structure LogEntry where
  message : String
deriving DecidableEq

/-- Errors raised by the job-wait path. -/
inductive WaitError where
  /-- Retry budget exhausted; carries the `error_suffix` naming the phase. -/
  | retryExhausted (suffix : String)
  /-- `JobFailedException`; carries the job's ordered log lines. -/
  | jobFailed (logs : List LogEntry)
deriving DecidableEq

/-- `error_suffix` of the start phase (`pachyderm.py` line 152). -/
def startSuffix : String := " to start"

/-- `error_suffix` of the finish phase (`pachyderm.py` line 160). -/
def finishSuffix : String := " to finish"

/-- Modelled from the spec: `pipeline.wait_for_run` of the missing
`pachyderm_proxy/pipeline.py`.  Per spec section 4.3 it polls the job
state once per attempt, sleeping between attempts, returns as soon as the
state leaves the still-pending set `still`, and fails with a
retry-exhausted error carrying the phase suffix after `budget`
unsuccessful attempts; per spec section 4.3 phase 2 it raises a
job-failed error carrying the job's log lines when the state it exits on
is `FAILED`.  `trace i` is the state observed by the `i`-th poll overall,
and on success the result records the index of the exiting poll together
with the state found there. -/
def waitForRun (still : List JobState) (suffix : String) (logs : List LogEntry)
    (trace : Nat → JobState) (i : Nat) :
    Nat → Except WaitError (Nat × JobState)
  | 0 => .error (.retryExhausted suffix)
  | budget + 1 =>
    let s := trace i
    if s ∈ still then
      waitForRun still suffix logs trace (i + 1) budget
    else if s = .failed then
      .error (.jobFailed logs)
    else
      .ok (i, s)

/-- Class constant `_retry_count` (`pachyderm.py` line 21). -/
def retryCount : Nat := 120

/-- Class constant `_retry_processing_count` (`pachyderm.py` line 23). -/
def retryProcessingCount : Nat := 50

/-- Class constant `_retry_delay` (`pachyderm.py` line 22), in seconds. -/
def retryDelay : ℚ := 1

/-- `PachydermEngine._wait_for_pipeline` (`pachyderm.py` lines 139-161):
first wait with budget `rc` for the job to leave `PENDING` (the default
still-pending set of `wait_for_run`), then wait with budget `rpc` for it
to leave `{STARTING, RUNNING}`; both calls share the one `_tick_callback`
closure and hence the same `retry_delay`.  The finish phase polls from
the index after the poll on which the start phase exited. -/
def waitForPipelineGen (rc rpc : Nat) (logs : List LogEntry)
    (trace : Nat → JobState) : Except WaitError (Nat × JobState) :=
  match waitForRun [.pending] startSuffix logs trace 0 rc with
  | .error e => .error e
  | .ok (n, _) =>
    waitForRun [.starting, .running] finishSuffix logs trace (n + 1) rpc

/-- The engine's wait as invoked from `wait_for_pipeline`
(`pachyderm.py` lines 199-206): `_wait_for_pipeline` applied to the class
constants. -/
def waitForPipeline (logs : List LogEntry) (trace : Nat → JobState) :
    Except WaitError (Nat × JobState) :=
  waitForPipelineGen retryCount retryProcessingCount logs trace

/-- Python `str.rstrip()`: drop trailing whitespace. -/
def rstrip (s : String) : String :=
  String.mk (s.data.reverse.dropWhile Char.isWhitespace).reverse

/-- `PachydermEngine.wait_for_pipeline` (`pachyderm.py` lines 199-212):
runs the two-phase wait; on `JobFailedException` with a non-empty log it
prints the first log entry and then the full log joined from the
rstripped messages, and re-raises the same exception.  The second
component records what was printed: the first log entry (printed as an
object) paired with the joined message text. -/
def waitForPipelineTop (logs : List LogEntry) (trace : Nat → JobState) :
    Except WaitError (Nat × JobState) × Option (LogEntry × String) :=
  match waitForPipeline logs trace with
  | .error (.jobFailed ls) =>
    match ls with
    | [] => (.error (.jobFailed ls), none)
    | l0 :: rest =>
      (.error (.jobFailed (l0 :: rest)),
        some (l0, String.intercalate "\n" ((l0 :: rest).map (fun l => rstrip l.message))))
  | r => (r, none)

/-! ## Staging (`pachyderm.py`, `add_processor` / `add_data` / `_add_file`,
and the staging part of `run`) -/

/-- The put operation issued on a commit (`commit.py`,
`put_file_bytes` / `put_file_url`).  Byte content is kept as the decoded
string; the `.encode('utf-8')` performed by `run` before staging is the
identity of this representation. -/
inductive PutAction where
  | putFileBytes (path : String) (content : String)
  | putFileUrl (path : String) (url : String)
deriving DecidableEq

/-- One staging commit as produced by `_add_file`: the session category it
targets, the branch of the commit, and the put operation performed inside
the commit. -/
structure StagedCommit where
  category : String
  branch : String
  action : PutAction
deriving DecidableEq

/-- `PachydermEngine._add_file` (`pachyderm.py` lines 72-85): opens a
commit on branch `master` of the category's repository and, when a bucket
is given, puts the file by URL built as `s3://<bucket>/<content>`,
otherwise puts the content bytewise. -/
def addFile (category filename content : String) (bucket : Option String) :
    StagedCommit :=
  { category := category
    branch := "master"
    action :=
      match bucket with
      | some b => .putFileUrl filename ("s3://" ++ b ++ "/" ++ content)
      | none => .putFileBytes filename content }

/-- `PachydermEngine.add_processor` (`pachyderm.py` lines 60-64):
prefixes the module name with a slash and a `.py` ending and stages it in
the `processors` category. -/
def addProcessor (moduleName content : String) : StagedCommit :=
  addFile "processors" ("/" ++ moduleName ++ ".py") content none

/-- `PachydermEngine.add_data` (`pachyderm.py` lines 66-70): prefixes the
filename with a slash and stages it in the `data` category. -/
def addData (filename content : String) (bucket : Option String) :
    StagedCommit :=
  addFile "data" ("/" ++ filename) content bucket

/-- The staging performed by `PachydermEngine.run`
(`pachyderm.py` lines 116-127): the processor module file is read and
staged under the fixed module name `processor`; the dataset content is
the `filename` argument itself when a bucket is given (remote object
key), otherwise the file's contents, staged under the fixed name
`data.csv`.  `readFile` models the local filesystem. -/
def runStaging (filename workflowModule : String) (bucket : Option String)
    (readFile : String → String) : List StagedCommit :=
  let procStage := addProcessor "processor" (readFile workflowModule)
  let content :=
    match bucket with
    | some _ => filename
    | none => readFile filename
  [procStage, addData "data.csv" content bucket]

/-- The path of a staged put operation. -/
def PutAction.path : PutAction → String
  | .putFileBytes p _ => p
  | .putFileUrl p _ => p

/-! ## Output retrieval (`pachyderm.py`, `get_output`) -/

/-- A Python value, as far as the engine's return value is concerned:
either a string or a list of strings. -/
inductive PyValue where
  | str (s : String)
  | list (l : List String)
deriving DecidableEq

/-- The fixed output artifact path passed to `pull_output`
(`pachyderm.py` line 191). -/
def outputPath : String := "/doorstep.out"

/-- `PachydermEngine.get_output` (`pachyderm.py` lines 190-193):
`pull_output` (of the missing `pipeline.py`; per spec section 4.5 it
pulls the raw bytes of the given path split on line boundaries) is called
on the fixed output path; each raw line is decoded to text by `dec`
(modelling `line.decode('utf-8')`) and the decoded lines are joined with
newline separators.  The joined string is returned wrapped in a
one-element Python list. -/
def getOutput {β : Type} (pullOutput : String → List β) (dec : β → String) :
    PyValue :=
  .list [String.intercalate "\n" ((pullOutput outputPath).map dec)]

/-! ## The completion race and the tail of `run`
(`pachyderm.py`, `run` lines 129-137 and `monitor_pipeline`) -/

/-- What `run` does after staging, at the level of task outcomes. -/
inductive RunOutcome where
  /-- `run` returned this value. -/
  | report (v : PyValue)
  /-- `run` remains suspended forever in `await monitor_output`. -/
  | blocked
  /-- `run` raised this error.  No branch of the embedded code produces
  this constructor: it exists so that the propagation demanded by the
  spec is expressible. -/
  | failed (e : WaitError)
deriving DecidableEq

/-- The observable state when the completion phase of `run` is over (or
permanently stuck). -/
structure CompletionResult where
  outcome : RunOutcome
  /-- `monitor_pipeline.cancel()` was reached (`run` line 133). -/
  pipeTaskCancelled : Bool
  /-- `stop_watching_commits` was reached (`watch_for_output` line 174). -/
  subscriptionClosed : Bool
deriving DecidableEq

/-- The completion phase of `PachydermEngine.run`
(`pachyderm.py` lines 129-137) given the outcomes of the two concurrent
tasks started by `monitor_pipeline` (lines 176-188).  `monitor_pipeline`
returns the pair `(pipeline_fut, queue.get())` and `run` awaits only
`queue.get()`; the queue receives a value exactly when `watch_for_output`
delivers a commit.  In that case `run` cancels `pipeline_fut`, and
`watch_for_output` has closed its subscription after the put.  When the
subscription path blocks or crashes, nothing is ever put on the queue:
`run` stays suspended in `await monitor_output`, the result of
`pipeline_fut` — including an error — is never awaited or retrieved, the
future is not cancelled, and the subscription is never closed. -/
def runCompletion {β : Type} (watch : WatchResult)
    (pipeResult : Except WaitError (Nat × JobState))
    (pullOutput : String → List β) (dec : β → String) : CompletionResult :=
  match watch, pipeResult with
  | .delivered _, _ => ⟨.report (getOutput pullOutput dec), true, true⟩
  | .blocked, _ => ⟨.blocked, false, false⟩
  | .crashed, _ => ⟨.blocked, false, false⟩

/-! ## Session scope (`pachyderm.py`, `make_session`) -/

/-- The cluster-side resources owned by one session. -/
inductive Res where
  | dataRepo
  | processorsRepo
  | pipeline
deriving DecidableEq

/-- A visible step of a session's lifetime: resource creation, resource
deletion, or an (opaque) action of the body that runs inside the scope. -/
inductive Event where
  | create (r : Res)
  | delete (r : Res)
  | act (tag : Nat)
deriving DecidableEq

/-- How the body of the session scope ended: normal return, an exception,
or cancellation of the surrounding task.  Python context managers run
their exit handler in every one of these cases. -/
inductive BodyExit where
  | normal
  | exception (msg : String)
  | cancelled
deriving DecidableEq

/-- A run of the scope body: how it exited and the events it performed. -/
structure BodyRun where
  exit : BodyExit
  events : List Event
deriving DecidableEq

/-- Modelled from the spec: the context managers `make_repo` and
`make_pipeline` of the missing `pachyderm_proxy/repo.py` and
`pipeline.py`.  Per spec section 4.1 each creates its resource on entry
and deletes it on every exit path of the enclosed block, normal, error
or cancellation alike. -/
def withResource (r : Res) (body : BodyRun) : BodyRun :=
  ⟨body.exit, Event.create r :: body.events ++ [Event.delete r]⟩

/-- `PachydermEngine.make_session` (`pachyderm.py` lines 87-111): the
data repository and the processors repository are opened by one `with`
statement in that order, and the pipeline is bound inside them, so that
the nesting is data, then processors, then pipeline around the yielded
body.  (`with A, B:` is `with A: with B:`.) -/
def makeSession (body : BodyRun) : BodyRun :=
  withResource .dataRepo (withResource .processorsRepo (withResource .pipeline body))

/-! ## The pipeline-definition cache (`pachyderm.py`, `get_definition`) -/

/-- The parsed pipeline template.  Every read of the fixed template file
yields the same JSON document, so the parsed value is one constant;
re-reading is observed through the read counter of `CacheState`. -/
def templateDefn : Nat := 0

/-- The attribute state of one Python process running engine instances:
the class attribute `PachydermEngine.pipeline_definition` (initially the
Python `None` of line 24), the instance attributes shadowing it (an
association list keyed by instance identity), and the number of reads of
the template file so far.  The loaded template is a non-empty JSON
object, hence truthy; only `None` is falsy here. -/
structure CacheState where
  classAttr : Option Nat
  instAttrs : List (String × Nat)
  reads : Nat
deriving DecidableEq

/-- The state of a fresh process: class attribute `None`, no instance
attributes, no reads. -/
def initCacheState : CacheState := ⟨none, [], 0⟩

/-- Python attribute lookup `self.pipeline_definition` for instance
`inst`: the instance attribute when present, else the class attribute. -/
def attrLookup (st : CacheState) (inst : String) : Option Nat :=
  match st.instAttrs.lookup inst with
  | some v => some v
  | none => st.classAttr

/-- `PachydermEngine.get_definition` (`pachyderm.py` lines 38-45) invoked
on instance `inst`: when `self.pipeline_definition` is falsy the template
file is opened and parsed, and the result is assigned to
`self.pipeline_definition` — an assignment through `self`, which creates
an instance attribute and leaves the class attribute untouched.  The
attribute value is then returned. -/
def getDefinition (inst : String) (st : CacheState) : Nat × CacheState :=
  match attrLookup st inst with
  | some d => (d, st)
  | none =>
    (templateDefn,
      { st with instAttrs := (inst, templateDefn) :: st.instAttrs,
                reads := st.reads + 1 })

/-! ## Concrete example inputs -/

/-- A commit whose provenance lists only the data repository. -/
def commitDataOnly : PachydermCommit :=
  ⟨"out", "c1", some [⟨"p1", "session-data"⟩]⟩

/-- A commit whose provenance lists only the processors repository. -/
def commitProcessorsOnly : PachydermCommit :=
  ⟨"out", "c2", some [⟨"p2", "session-processors"⟩]⟩

/-- A commit whose provenance lists both input repositories — in the
order opposite to the target set's listing. -/
def commitBoth : PachydermCommit :=
  ⟨"out", "c3", some [⟨"p3", "session-processors"⟩, ⟨"p4", "session-data"⟩]⟩

/-- The target set of an example session, data repository listed first. -/
def targetExample : Finset String :=
  inputRepos "session-data" "session-processors"

/-- A raw gRPC commit for which the cluster reports an empty provenance
listing. -/
def rawEmptyProv : RawCommit := ⟨⟨"out", "c0"⟩, []⟩

/-! ## Theorems -/

/-- C2: for every sequence of commits delivered to the subscription, the
first commit whose provenance set equals the target set (compared as
sets, hence independent of listing order) is the one accepted by
`watch_for_output`; earlier non-matching commits are skipped without
stopping the loop, and later commits are never consulted. -/
theorem watch_accepts_first_matching (target : Finset String)
    (pre post : List PachydermCommit) (c : PachydermCommit)
    (hpre : ∀ d ∈ pre, provCheck target d = some false)
    (hc : provCheck target c = some true) :
    watchForOutput target (pre ++ c :: post) = .delivered c := by
  induction pre with
  | nil =>
    cases hps : c.provenance with
    | none => simp [provCheck, hps] at hc
    | some ps =>
      have ht : (ps.map (fun p => p.repo_name)).toFinset = target := by
        simpa [provCheck, hps] using hc
      simp [watchForOutput, hps, ht]
  | cons d ds ih =>
    have hd : provCheck target d = some false := hpre d (by simp)
    have hrest : ∀ e ∈ ds, provCheck target e = some false :=
      fun e he => hpre e (by simp [he])
    cases hdp : d.provenance with
    | none => simp [provCheck, hdp] at hd
    | some ps =>
      have hf : ¬(ps.map (fun p => p.repo_name)).toFinset = target := by
        simpa [provCheck, hdp] using hd
      simpa [watchForOutput, hdp, hf] using ih hrest

/-- C2 witness: the spec's three-commit scenario.  The commits carry
provenances {data}, {processors}, {processors, data}; exactly the third
is delivered, although its provenance lists the repositories in the
opposite order to the target set. -/
theorem watch_accepts_first_matching_witness :
    watchForOutput targetExample
        ([commitDataOnly, commitProcessorsOnly] ++ commitBoth :: []) =
      .delivered commitBoth :=
  watch_accepts_first_matching targetExample
    [commitDataOnly, commitProcessorsOnly] [] commitBoth
    (by decide) (by decide)

/-- C3: a commit whose raw cluster metadata lists no provenance is
reconstructed by `from_raw` with the default `None` provenance, and when
such a commit reaches `watch_for_output` the set comprehension iterates
over `None`: the watcher task raises a `TypeError` and dies instead of
discarding the commit and waiting for the next one. -/
theorem no_provenance_commit_crashes_watcher :
    PachydermCommit.from_raw rawEmptyProv = ⟨"out", "c0", none⟩ ∧
    watchForOutput targetExample [PachydermCommit.from_raw rawEmptyProv] = .crashed ∧
    watchForOutput targetExample [PachydermCommit.from_raw rawEmptyProv] ≠ .blocked := by
  decide

/-- Helper for C5: as long as every poll strictly before `k` finds a
state inside the still-pending set and poll `k` (within the budget) finds
a state outside it that is not `FAILED`, the wait returns the index and
state of poll `k`. -/
theorem waitForRun_exits_at (still : List JobState) (suffix : String)
    (logs : List LogEntry) (trace : Nat → JobState) :
    ∀ b i k : Nat, i ≤ k → k - i < b →
      (∀ j, i ≤ j → j < k → trace j ∈ still) →
      trace k ∉ still → trace k ≠ .failed →
      waitForRun still suffix logs trace i b = .ok (k, trace k) := by
  intro b
  induction b with
  | zero => intro i k _ hlt _ _ _; omega
  | succ b ih =>
    intro i k hik hlt hstill hexit hnf
    by_cases hik2 : i = k
    · subst hik2
      simp [waitForRun, hexit, hnf]
    · have hi : i < k := lt_of_le_of_ne hik hik2
      have hin : trace i ∈ still := hstill i le_rfl hi
      have hstep : waitForRun still suffix logs trace i (b + 1) =
          waitForRun still suffix logs trace (i + 1) b := by
        simp [waitForRun, hin]
      rw [hstep]
      exact ih (i + 1) k hi (by omega) (fun j hj hjk => hstill j (by omega) hjk)
        hexit hnf

/-- C5: the job-state wait of `_wait_for_pipeline` is two sequential
phases: a start phase with budget `_retry_count = 120` that polls until
the job leaves `PENDING`, and — only once the start phase has succeeded,
at poll `k` — a finish phase with budget `_retry_processing_count = 50`
that polls from the next observation on until the job leaves
`{STARTING, RUNNING}`, both with the same fixed delay
`_retry_delay = 1` between attempts. -/
theorem wait_two_phase (logs : List LogEntry) (trace : Nat → JobState)
    (k : Nat) (hk : k < retryCount)
    (hpend : ∀ i, i < k → trace i = .pending)
    (hexit : trace k ≠ .pending) (hnf : trace k ≠ .failed) :
    waitForPipeline logs trace =
      waitForRun [.starting, .running] finishSuffix logs trace (k + 1)
        retryProcessingCount
    ∧ retryCount = 120 ∧ retryProcessingCount = 50 ∧ retryDelay = 1 := by
  refine ⟨?_, rfl, rfl, rfl⟩
  have h1 : waitForRun [.pending] startSuffix logs trace 0 retryCount =
      .ok (k, trace k) := by
    apply waitForRun_exits_at
    · exact Nat.zero_le k
    · omega
    · intro j _ hjk
      simpa using hpend j hjk
    · simpa using hexit
    · exact hnf
  simp [waitForPipeline, waitForPipelineGen, h1]

/-- C5 witness: a job observed as `STARTING` on the very first poll and
never leaving `STARTING` afterwards: the start phase succeeds at poll 0
and the finish phase runs from poll 1 with budget 50. -/
theorem wait_two_phase_witness :
    waitForPipeline [] (fun _ => JobState.starting) =
      waitForRun [.starting, .running] finishSuffix []
        (fun _ => JobState.starting) (0 + 1) retryProcessingCount
    ∧ retryCount = 120 ∧ retryProcessingCount = 50 ∧ retryDelay = 1 :=
  wait_two_phase [] (fun _ => JobState.starting) 0 (by decide)
    (fun i hi => absurd hi (Nat.not_lt_zero i)) (by decide) (by decide)

/-- C6: when the two-phase wait ends in a `JobFailedException`, the
engine's `wait_for_pipeline` prints the first log entry, prints all log
messages joined in their original order, and re-raises the very same
exception, with the log lines unchanged and in order. -/
theorem job_failure_logs_propagate (trace : Nat → JobState) (l0 : LogEntry)
    (rest : List LogEntry)
    (hfail : waitForPipeline (l0 :: rest) trace = .error (.jobFailed (l0 :: rest))) :
    waitForPipelineTop (l0 :: rest) trace =
      (.error (.jobFailed (l0 :: rest)),
        some (l0,
          String.intercalate "\n" ((l0 :: rest).map (fun l => rstrip l.message)))) := by
  simp [waitForPipelineTop, hfail]

/-- C6 witness: a job that is already `FAILED` on the first poll, with
logs `["boom", "line2"]`: the raised error exposes `"boom"` as the first
entry and both lines in original order, and propagates unchanged. -/
theorem job_failure_logs_propagate_witness :
    waitForPipelineTop [⟨"boom"⟩, ⟨"line2"⟩] (fun _ => JobState.failed) =
      (.error (.jobFailed [⟨"boom"⟩, ⟨"line2"⟩]),
        some (⟨"boom"⟩,
          String.intercalate "\n"
            (([⟨"boom"⟩, ⟨"line2"⟩] : List LogEntry).map (fun l => rstrip l.message)))) :=
  job_failure_logs_propagate (fun _ => JobState.failed) ⟨"boom"⟩ [⟨"line2"⟩] rfl

/-- C7: for every run of the session body — normal return, exception, or
cancellation, with arbitrary body events — `make_session` creates the
data repository, the processors repository and the pipeline in that
order, and tears them down in exactly the reverse order: pipeline first,
then processors repository, then data repository, on every exit path. -/
theorem session_teardown_reverse_order (body : BodyRun) :
    makeSession body =
      ⟨body.exit,
        Event.create .dataRepo :: Event.create .processorsRepo ::
          Event.create .pipeline ::
          (body.events ++
            [Event.delete .pipeline, Event.delete .processorsRepo,
              Event.delete .dataRepo])⟩ := by
  simp [makeSession, withResource]

/-- C8: when a bucket is supplied to `run`, the dataset parameter is
treated as a remote object key and staged with `put_file_url` on the URL
`s3://<bucket>/<key>`, while without a bucket the dataset file is read
and staged with `put_file_bytes`; the processor module is read and staged
bytewise in both modes. -/
theorem staging_mode_selection (filename workflowModule b : String)
    (readFile : String → String) :
    runStaging filename workflowModule (some b) readFile =
      [⟨"processors", "master", .putFileBytes "/processor.py" (readFile workflowModule)⟩,
        ⟨"data", "master", .putFileUrl "/data.csv" ("s3://" ++ b ++ "/" ++ filename)⟩]
    ∧ runStaging filename workflowModule none readFile =
      [⟨"processors", "master", .putFileBytes "/processor.py" (readFile workflowModule)⟩,
        ⟨"data", "master", .putFileBytes "/data.csv" (readFile filename)⟩] :=
  ⟨rfl, rfl⟩

/-- C10: whatever file names the caller supplies and whether or not a
bucket is given, the two staging commits of `run` put the processor
module at `/processor.py` in the processors repository and the dataset
at `/data.csv` in the data repository, both on the `master` branch. -/
theorem staging_paths_fixed (filename workflowModule : String)
    (bucket : Option String) (readFile : String → String) :
    (runStaging filename workflowModule bucket readFile).map
        (fun s => (s.category, s.branch, s.action.path)) =
      [("processors", "master", "/processor.py"),
        ("data", "master", "/data.csv")] := by
  cases bucket <;> rfl

/-- C9 counterexample: in a fresh process, instance `A` loads the
definition (one read of the template file); the claim says a later call
on a different instance `B` returns the cached value without re-reading,
but `get_definition` assigns through `self`, creating an instance
attribute and leaving the class attribute `None`, so the call on `B`
reads the template file again. -/
theorem different_instance_rereads :
    ((getDefinition "B" (getDefinition "A" initCacheState).2).2).reads = 2 ∧
    ((getDefinition "B" (getDefinition "A" initCacheState).2).2).reads ≠
      ((getDefinition "A" initCacheState).2).reads := by
  decide

/-- C9 amended: the definition cache is per engine instance, not per
process: after the first call on a given instance, every later call on
that same instance returns the same definition value and leaves the
state — including the file-read count — unchanged. -/
theorem definition_cached_per_instance (inst : String) (st : CacheState) :
    getDefinition inst (getDefinition inst st).2 = getDefinition inst st := by
  cases h : attrLookup st inst with
  | some d => simp [getDefinition, h]
  | none =>
    have h2 : attrLookup
        { st with instAttrs := (inst, templateDefn) :: st.instAttrs,
                  reads := st.reads + 1 } inst = some templateDefn := by
      simp [attrLookup, List.lookup]
    simp [getDefinition, h, h2]

/-- C4 counterexample: `get_output` wraps the joined report in a
one-element Python list, so the value `run` returns is not the report
string itself: for output lines `["a", "b"]` the returned value is
`["a\nb"]`, not `"a\nb"`. -/
theorem run_returns_list_not_string :
    getOutput (fun _ => ["a", "b"]) (fun s => s) = PyValue.list ["a" ++ "\n" ++ "b"] ∧
    getOutput (fun _ => ["a", "b"]) (fun s => s) ≠ PyValue.str ("a" ++ "\n" ++ "b") := by
  decide

/-- C4 amended: for every successful run — one in which the subscription
path delivers a commit — the value returned by `run` is a one-element
list containing the final report string obtained by pulling the output
artifact's raw lines from the fixed path `/doorstep.out`, decoding each
line, and joining the decoded lines with newline separators. -/
theorem run_report_wrapped {β : Type} (target : Finset String)
    (commits : List PachydermCommit)
    (pipeResult : Except WaitError (Nat × JobState))
    (pullOutput : String → List β) (dec : β → String) (c : PachydermCommit)
    (hdel : watchForOutput target commits = .delivered c) :
    (runCompletion (watchForOutput target commits) pipeResult pullOutput dec).outcome =
      .report (.list [String.intercalate "\n" ((pullOutput outputPath).map dec)]) := by
  simp [runCompletion, hdel, getOutput]

/-- C4 witness: a stream delivering one matching commit and an output
artifact holding the lines `["a", "b"]`: `run` returns the list holding
the single joined report string. -/
theorem run_report_wrapped_witness :
    (runCompletion (watchForOutput targetExample [commitBoth]) (.ok (0, .succeeded))
        (fun _ => ["a", "b"]) (fun s => s)).outcome =
      .report (.list [String.intercalate "\n"
        (((fun _ => ["a", "b"]) outputPath).map (fun s : String => s))]) :=
  run_report_wrapped targetExample [commitBoth] (.ok (0, .succeeded))
    (fun _ => ["a", "b"]) (fun s => s) commitBoth (by decide)

/-- C1: the completion race is broken on the error side.  With an empty
(never-matching) commit stream and the job-wait task failing with a
`JobFailedException`, `run` stays suspended in `await monitor_output`
with the job-wait error unretrieved, `monitor_pipeline.cancel()` never
reached and the subscription never closed — instead of the error
propagating out of `run` with the subscription cancelled, as the spec
requires. -/
theorem job_error_not_propagated :
    runCompletion (watchForOutput targetExample [])
        (.error (.jobFailed [⟨"boom"⟩])) (fun _ => ([] : List String)) (fun s => s) =
      ⟨.blocked, false, false⟩ ∧
    (runCompletion (watchForOutput targetExample [])
        (.error (.jobFailed [⟨"boom"⟩])) (fun _ => ([] : List String)) (fun s => s)).outcome ≠
      .failed (.jobFailed [⟨"boom"⟩]) := by
  decide

end Doorstep
